import Mathlib

/-!
Verification of the stata_kernel execute-request orchestration
(`stata_kernel/kernel.py`) and of the code-chunking / completeness core it
drives.  The kernel shell (`StataKernel.do_execute`, `post_do_hook`,
`send_image`, `do_is_complete`, `is_complete`, `__init__`) is embedded
directly from the source; its collaborators (the `CodeManager`
scanner/splitter, the Stata session, the magic dispatcher, the filesystem)
live outside the shell and are modelled as explicit inputs or, where the
design document fully specifies them, as executable definitions.
-/

namespace StataKernel

/-! ### The scanner / completeness core (CodeManager)

Modelled from the spec: `code_manager.py` is not part of the sources under
review, so the lexical state machine of design sections 4.1 and 4.3 is
embedded here: states Normal / line comment / nestable block comment /
string literal / continuation / delimiter-directive, a structural nesting
counter over braces, and the runtime-toggleable delimiter mode (`false` =
newline-terminated, `true` = explicit `;`).  Multi-character markers
(`//`, `///`, `/*`, `*/`, `#delimit`) are recognised through intermediate
partial-match states so that scanning is a plain character fold. -/

inductive LexState where
  | normal
  | slash1
  | slash2
  | lineComment
  | contComment
  | strLit
  | blockComment (d : Nat)
  | bcStar (d : Nat)
  | bcSlash (d : Nat)
  | hashKw (i : Nat)
  | delimitArg
  deriving DecidableEq

/-- Full scanner state: lexical state, structural brace depth, whether the
current (not yet delimited) chunk holds any code, and the active delimiter
mode (`true` = explicit-`;` mode). -/
structure ScanState where
  lex : LexState
  depth : Nat
  pending : Bool
  mode : Bool
  deriving DecidableEq

/-- The i-th character of the `#delimit` keyword after `#` (1-based). -/
def kwChar : Nat → Char
  | 1 => 'd'
  | 2 => 'e'
  | 3 => 'l'
  | 4 => 'i'
  | 5 => 'm'
  | 6 => 'i'
  | 7 => 't'
  | _ => ' '

/-- Transition from the `normal` lexical state. -/
def stepNormal (s : ScanState) (c : Char) : ScanState :=
  if c = '/' then { s with lex := .slash1 }
  else if c = '"' then { s with lex := .strLit, pending := true }
  else if c = '{' then { s with depth := s.depth + 1, pending := true }
  else if c = '}' then { s with depth := s.depth - 1, pending := true }
  else if c = ';' then
    (if s.mode then { s with pending := false } else { s with pending := true })
  else if c = '\n' then
    (if s.mode then s else { s with pending := false })
  else if c = '#' then { s with lex := .hashKw 1 }
  else if c = ' ' ∨ c = '\t' ∨ c = '\r' then s
  else { s with pending := true }

/-- One-character scanner transition. -/
def step (s : ScanState) (c : Char) : ScanState :=
  match s.lex with
  | .normal => stepNormal s c
  | .slash1 =>
    if c = '/' then { s with lex := .slash2 }
    else if c = '*' then { s with lex := .blockComment 1 }
    else stepNormal { s with lex := .normal, pending := true } c
  | .slash2 =>
    if c = '/' then { s with lex := .contComment }
    else if c = '\n' then
      (if s.mode then { s with lex := .normal }
       else { s with lex := .normal, pending := false })
    else { s with lex := .lineComment }
  | .lineComment =>
    if c = '\n' then
      (if s.mode then { s with lex := .normal }
       else { s with lex := .normal, pending := false })
    else s
  | .contComment =>
    if c = '\n' then { s with lex := .normal } else s
  | .strLit =>
    if c = '"' then { s with lex := .normal } else s
  | .blockComment d =>
    if c = '*' then { s with lex := .bcStar d }
    else if c = '/' then { s with lex := .bcSlash d }
    else s
  | .bcStar d =>
    if c = '/' then
      (if d ≤ 1 then { s with lex := .normal }
       else { s with lex := .blockComment (d - 1) })
    else if c = '*' then s
    else { s with lex := .blockComment d }
  | .bcSlash d =>
    if c = '*' then { s with lex := .blockComment (d + 1) }
    else if c = '/' then s
    else { s with lex := .blockComment d }
  | .hashKw i =>
    if c = kwChar i then
      (if i = 7 then { s with lex := .delimitArg }
       else { s with lex := .hashKw (i + 1) })
    else stepNormal { s with lex := .normal, pending := true } c
  | .delimitArg =>
    if c = ';' then { s with lex := .normal, mode := true, pending := false }
    else if c = '\n' then { s with lex := .normal, mode := false, pending := false }
    else s

/-- Resolve partial-match states at end of input: a lone `/` or a partial
`#delimit` keyword were ordinary code; a `//` at end of input is a line
comment; a `#delimit` directive with no explicit `;` argument sets
newline mode. -/
def finish (s : ScanState) : ScanState :=
  match s.lex with
  | .slash1 => { s with lex := .normal, pending := true }
  | .hashKw _ => { s with lex := .normal, pending := true }
  | .slash2 => { s with lex := .lineComment }
  | .delimitArg => { s with lex := .normal, mode := false, pending := false }
  | _ => s

def initState (mode : Bool) : ScanState :=
  { lex := .normal, depth := 0, pending := false, mode := mode }

/-- Scan a whole code block starting from state `s`. -/
def scanFrom (s : ScanState) (cs : List Char) : ScanState :=
  cs.foldl step s

/-- Final scanner state of a code block under a starting delimiter mode. -/
def finalState (code : String) (mode : Bool) : ScanState :=
  finish (scanFrom (initState mode) code.data)

/-- Lexical states acceptable at end of input (after `finish`). -/
def acceptingLex : LexState → Bool
  | .normal => true
  | .lineComment => true
  | _ => false

/-- Acceptance predicate on a finished scanner state: not inside a string,
block comment or continuation, structural depth zero, and in explicit-`;`
mode no chunk left dangling without its delimiter. -/
def completeState (s : ScanState) : Bool :=
  acceptingLex s.lex && s.depth == 0 && (!s.mode || !s.pending)

/-- Modelled from the spec: `CodeManager(code, mode).is_complete` — the
completeness verdict of design section 4.3. -/
def is_complete (code : String) (mode : Bool) : Bool :=
  completeState (finalState code mode)

/-- Modelled from the spec: `CodeManager(code, mode).ends_sc` — the
delimiter mode in force at the end of the block (the splitter's
`finalMode`). -/
def ends_sc (code : String) (mode : Bool) : Bool :=
  (finalState code mode).mode

/-- Modelled from the spec: the stable content fingerprint over the chunk
text (a strong non-cryptographic digest; cache-keying, not security). -/
def fingerprint (code : String) : Nat :=
  code.data.foldl (fun h c => (h * 31 + c.toNat) % 2 ^ 64) 7

/-- Modelled from the spec: `CodeManager.get_text(config)` returns the text
to submit, its fingerprint, and the text whose echo the session should
exclude. -/
def get_text (code : String) : String × Nat × Option String :=
  (code, fingerprint code, none)

/-! ### The kernel shell (embedded from `stata_kernel/kernel.py`) -/

/-- A message sent on the iopub socket: a `stream` output or a
`display_data` response (mime type plus the width/height metadata, when
the branch computes any). -/
inductive Msg where
  | stream (name : String) (text : String)
  | displayData (mime : String) (width : Option Nat) (height : Option Nat)
  deriving DecidableEq

/-- An interaction with a collaborator, recorded in execution order:
construction of a `CodeManager` plus its `get_text` call, a
`self.stata.do(...)` round trip (with its `display` flag), the
`magics.post` call, and the completions refresh. -/
inductive Event where
  | split (code : String) (mode : Bool)
  | sessionDo (text : String) (md5 : Nat) (exclude : Option String) (display : Bool)
  | magicsPost
  | completionsRefresh
  deriving DecidableEq

/-- An execute-reply dictionary (absent keys are `none`). -/
structure Reply where
  status : String
  execution_count : Option Nat
  payload : Option (List String)
  user_expressions : Option (List (String × String))
  deriving DecidableEq

/-- Reply of the `do_is_complete` RPC. -/
structure IsCompleteReply where
  status : String
  indent : Option String
  deriving DecidableEq

/-- Kernel-owned mutable state relevant to execution. -/
structure KernelState where
  sc_delimit_mode : Bool
  execution_count : Nat
  deriving DecidableEq

/-- Session-collaborator state mutated by the kernel (`stata.linesize`). -/
structure StataState where
  linesize : Int
  deriving DecidableEq

/-- Behaviour of the magic dispatcher for one request: the code it returns
and, when it fully handled the request, the `quit_early` reply. -/
structure MagicsBehavior where
  transform : String
  quit_early : Option Reply
  deriving DecidableEq

/-- Behaviour of the external Stata session for one request: return code
and captured text of the main `do`, and of the line-size probe `do`. -/
structure SessionBehavior where
  rc : Nat
  res : String
  probe_rc : Nat
  probe_res : String
  deriving DecidableEq

/-- `StataKernel.__init__` sets `self.sc_delimit_mode = False` (kernel.py
line 65); the base class starts the execution counter at zero. -/
def init_kernel : KernelState :=
  { sc_delimit_mode := false, execution_count := 0 }

/-- `StataKernel.is_complete` (kernel.py lines 247-248). -/
def kernel_is_complete (k : KernelState) (code : String) : Bool :=
  is_complete code k.sc_delimit_mode

/-- `StataKernel.do_is_complete` (kernel.py lines 227-232). -/
def do_is_complete (k : KernelState) (code : String) : IsCompleteReply :=
  if kernel_is_complete k code then { status := "complete", indent := none }
  else { status := "incomplete", indent := some "    " }

/-- The dedented incomplete-input hint of `do_execute`. -/
def invalid_input_msg : String :=
  "stata_kernel error: code entered was incomplete.\n\nThis usually means that a loop or program was not correctly terminated.\nThis can also happen if you are in `#delimit ;` mode and did not end the\ncommand with `;`. Use `%delimit` to see the current delimiter mode.\n"

/-- The line-size probe command of `post_do_hook`. -/
def probe_code : String := "di `c(linesize)\x27"

/-- Result of `post_do_hook`: the session state afterwards, the
collaborator events, and whether an exception propagated (the `int()`
conversion of an unparsable probe result). -/
structure HookResult where
  stata : StataState
  events : List Event
  raised : Bool

/-- `StataKernel.post_do_hook` (kernel.py lines 137-149): run the probe
chunk with `display=False`; on a zero return code store
`int(res.strip())` into `stata.linesize`; then refresh completions. -/
def post_do_hook (st : StataState) (probe_rc : Nat) (probe_res : String) :
    HookResult :=
  let t := (get_text probe_code).1
  let m := (get_text probe_code).2.1
  let ex := (get_text probe_code).2.2
  let ev := Event.sessionDo t m ex false
  if probe_rc ≠ 0 then
    { stata := st, events := [ev, .completionsRefresh], raised := false }
  else
    match probe_res.trim.toInt? with
    | some n =>
      { stata := { st with linesize := n },
        events := [ev, .completionsRefresh], raised := false }
    | none => { stata := st, events := [ev], raised := true }

/-- Outcome of one `do_execute` call: the reply (`none` when an exception
propagated), the kernel and session states afterwards, the stream
messages sent by the kernel shell itself, and the collaborator events. -/
structure ExecResult where
  reply : Option Reply
  kernel : KernelState
  stata : StataState
  msgs : List Msg
  events : List Event

/-- `StataKernel.do_execute` (kernel.py lines 72-135): gate on
`is_complete`; run the magic dispatcher and honour `quit_early`; split the
(possibly magic-rewritten) code, run it through the session; run
`magics.post` and `post_do_hook`; emit the delimiter-change notice when
not silent; commit `sc_delimit_mode`; map the return code to the reply. -/
def do_execute (k : KernelState) (st : StataState) (magics : MagicsBehavior)
    (session : SessionBehavior) (code : String) (silent : Bool) : ExecResult :=
  if !(is_complete code k.sc_delimit_mode) then
    { reply := some { status := "error", execution_count := some k.execution_count,
                      payload := none, user_expressions := none },
      kernel := k, stata := st,
      msgs := [Msg.stream "stderr" invalid_input_msg], events := [] }
  else
    let code1 := magics.transform
    match magics.quit_early with
    | some r =>
      { reply := some r, kernel := k, stata := st, msgs := [], events := [] }
    | none =>
      let text_to_run := (get_text code1).1
      let md5 := (get_text code1).2.1
      let text_to_exclude := (get_text code1).2.2
      let evs0 := [Event.split code1 k.sc_delimit_mode,
                   Event.sessionDo text_to_run md5 text_to_exclude true,
                   Event.magicsPost]
      let hk := post_do_hook st session.probe_rc session.probe_res
      let evs1 := evs0 ++ hk.events
      if hk.raised then
        { reply := none, kernel := k, stata := hk.stata, msgs := [], events := evs1 }
      else
        let newMode := ends_sc code1 k.sc_delimit_mode
        let notice : List Msg :=
          if !silent && (newMode != k.sc_delimit_mode) then
            [Msg.stream "stdout"
              ("delimiter now " ++ (if newMode then ";" else "cr"))]
          else []
        let reply : Reply :=
          if session.rc ≠ 0 then
            { status := "error", execution_count := some k.execution_count,
              payload := none, user_expressions := none }
          else
            { status := "ok", execution_count := some k.execution_count,
              payload := some [], user_expressions := some [] }
        { reply := some reply,
          kernel := { k with sc_delimit_mode := newMode },
          stata := hk.stata, msgs := notice, events := evs1 }

/-- Oracle for the filesystem/image collaborators of `send_image`: the
dimensions read from the SVG attributes or from the PNG header, and
whether the platform is Darwin (where the PNG dimensions are halved). -/
structure GraphFile where
  svg_width : Nat
  svg_height : Nat
  png_width : Nat
  png_height : Nat
  darwin : Bool
  deriving DecidableEq

/-- Python `str.endswith`, as a suffix test on the character lists. -/
def strEndsWith (s suf : String) : Bool :=
  List.isSuffixOf suf.data s.data

/-- `StataKernel.send_image` (kernel.py lines 151-215): dispatch on the
path extension; `.svg`, `.png` and `.pdf` each send one `display_data`
response; anything else falls through and sends nothing. -/
def send_image (g : GraphFile) (graph_path : String) : List Msg :=
  if strEndsWith graph_path ".svg" then
    [Msg.displayData "image/svg+xml" (some g.svg_width) (some g.svg_height)]
  else if strEndsWith graph_path ".png" then
    let w := if g.darwin then g.png_width / 2 else g.png_width
    let h := if g.darwin then g.png_height / 2 else g.png_height
    [Msg.displayData "image/png" (some w) (some h)]
  else if strEndsWith graph_path ".pdf" then
    [Msg.displayData "application/pdf" none none]
  else []

/-- Whitespace characters (space, tab, carriage return, newline). -/
def isWsChar (c : Char) : Bool :=
  c == ' ' || c == '\t' || c == '\r' || c == '\n'

/-- Recognise a session round trip whose echoed input/output the caller
asked to hide (`display=False`). -/
def isSuppressedDo : Event → Bool
  | .sessionDo _ _ _ false => true
  | _ => false

/-! ### Theorems -/

/-- C8: at kernel construction the carried-forward delimiter mode is
initialized to newline mode (`sc_delimit_mode = False`), so the first
`is_complete` call of a session interprets its input under newline mode. -/
theorem init_mode_newline :
    init_kernel.sc_delimit_mode = false ∧
    ∀ code, kernel_is_complete init_kernel code = is_complete code false :=
  ⟨rfl, fun _ => rfl⟩

/-- C4: `do_is_complete` returns status `complete` exactly when
`is_complete` holds under the current delimiter mode, and otherwise status
`incomplete` with the constant four-space indent hint. -/
theorem do_is_complete_rpc (k : KernelState) (code : String) :
    (is_complete code k.sc_delimit_mode = true →
      do_is_complete k code = { status := "complete", indent := none }) ∧
    (is_complete code k.sc_delimit_mode = false →
      do_is_complete k code = { status := "incomplete", indent := some "    " }) := by
  constructor <;> intro h <;> simp [do_is_complete, kernel_is_complete, h]

/-- C4 witness: evaluated at the complete block `di 1` under the initial
kernel state. -/
theorem do_is_complete_rpc_witness :
    do_is_complete init_kernel "di 1" = { status := "complete", indent := none } :=
  (do_is_complete_rpc init_kernel "di 1").1 (by decide)

/-- C2: the completeness checker gates the splitter — on incomplete input
`do_execute` sends the textual hint, replies with a status value carrying
the current execution count, raises nothing, and performs no collaborator
interaction at all (no `CodeManager`/`get_text`, no session call). -/
theorem incomplete_input_gate (k : KernelState) (st : StataState)
    (magics : MagicsBehavior) (session : SessionBehavior) (code : String)
    (silent : Bool) (h : is_complete code k.sc_delimit_mode = false) :
    do_execute k st magics session code silent =
      { reply := some { status := "error", execution_count := some k.execution_count,
                        payload := none, user_expressions := none },
        kernel := k, stata := st,
        msgs := [Msg.stream "stderr" invalid_input_msg], events := [] } := by
  simp [do_execute, h]

/-- C2 witness: evaluated at the open-block input of spec scenario 2. -/
theorem incomplete_input_gate_witness :
    do_execute init_kernel ⟨80⟩ ⟨"", none⟩ ⟨0, "", 0, ""⟩ "foreach i in 1 2 \x7b" false =
      { reply := some { status := "error", execution_count := some 0,
                        payload := none, user_expressions := none },
        kernel := init_kernel, stata := ⟨80⟩,
        msgs := [Msg.stream "stderr" invalid_input_msg], events := [] } :=
  incomplete_input_gate init_kernel ⟨80⟩ ⟨"", none⟩ ⟨0, "", 0, ""⟩
    "foreach i in 1 2 \x7b" false (by decide)

/-- C9: when the magic dispatcher fully handles a complete block
(`quit_early` set), `do_execute` returns the magic's reply directly: no
session interaction, no messages, and both kernel and session state (in
particular `sc_delimit_mode`) unchanged. -/
theorem magic_quit_early_frame (k : KernelState) (st : StataState)
    (magics : MagicsBehavior) (session : SessionBehavior) (code : String)
    (silent : Bool) (r : Reply)
    (hc : is_complete code k.sc_delimit_mode = true)
    (hq : magics.quit_early = some r) :
    do_execute k st magics session code silent =
      { reply := some r, kernel := k, stata := st, msgs := [], events := [] } := by
  simp [do_execute, hc, hq]

/-- C9 witness: a magic that handles `di 1` itself and replies `ok`. -/
theorem magic_quit_early_frame_witness :
    do_execute init_kernel ⟨80⟩ ⟨"", some ⟨"ok", some 0, some [], some []⟩⟩
        ⟨1, "", 1, ""⟩ "di 1" false =
      { reply := some ⟨"ok", some 0, some [], some []⟩, kernel := init_kernel,
        stata := ⟨80⟩, msgs := [], events := [] } :=
  magic_quit_early_frame init_kernel ⟨80⟩ ⟨"", some ⟨"ok", some 0, some [], some []⟩⟩
    ⟨1, "", 1, ""⟩ "di 1" false ⟨"ok", some 0, some [], some []⟩ (by decide) rfl

/-- C5: for a complete, non-magic block (and a post-hook that completes),
`do_execute` maps the session's pass/fail return code to the reply: a
nonzero code yields status `error` with the execution count; a zero code
yields status `ok` with an empty payload list and empty user expressions. -/
theorem reply_status_matches_rc (k : KernelState) (st : StataState)
    (magics : MagicsBehavior) (session : SessionBehavior) (code : String)
    (silent : Bool)
    (hc : is_complete code k.sc_delimit_mode = true)
    (hq : magics.quit_early = none)
    (hraise : (post_do_hook st session.probe_rc session.probe_res).raised = false) :
    (session.rc ≠ 0 →
      (do_execute k st magics session code silent).reply =
        some { status := "error", execution_count := some k.execution_count,
               payload := none, user_expressions := none }) ∧
    (session.rc = 0 →
      (do_execute k st magics session code silent).reply =
        some { status := "ok", execution_count := some k.execution_count,
               payload := some [], user_expressions := some [] }) := by
  constructor <;> intro h <;> simp [do_execute, hc, hq, hraise, h]

/-- C5 witness: a failing session round trip (`rc = 1`) on `di 1`. -/
theorem reply_status_matches_rc_witness :
    (do_execute init_kernel ⟨80⟩ ⟨"di 1", none⟩ ⟨1, "", 1, ""⟩ "di 1" false).reply =
      some { status := "error", execution_count := some 0,
             payload := none, user_expressions := none } :=
  (reply_status_matches_rc init_kernel ⟨80⟩ ⟨"di 1", none⟩ ⟨1, "", 1, ""⟩ "di 1" false
    (by decide) rfl (by decide)).1 (by decide)

/-- C1 counterexample: on the complete block `#delimit ;` with a failing
session round trip (`rc = 1`), `sc_delimit_mode` is nevertheless changed
from `false` to `true` by `do_execute` — the commit at kernel.py line 125
is unconditional, contradicting the claim that a failing return code
leaves the mode unchanged. -/
theorem delimit_commit_on_failure_cex :
    (⟨1, "", 1, ""⟩ : SessionBehavior).rc ≠ 0 ∧
    init_kernel.sc_delimit_mode = false ∧
    (do_execute init_kernel ⟨80⟩ ⟨"#delimit ;", none⟩ ⟨1, "", 1, ""⟩
        "#delimit ;" false).kernel.sc_delimit_mode = true := by
  refine ⟨by decide, rfl, by decide⟩

/-- C1 (amended): for every `do_execute` on complete input where the magic
dispatcher does not quit early and the post-execution hook does not raise,
`sc_delimit_mode` is committed exactly once, to the splitter's
`cm.ends_sc`, regardless of the session's return code. -/
theorem delimit_commit_unconditional (k : KernelState) (st : StataState)
    (magics : MagicsBehavior) (session : SessionBehavior) (code : String)
    (silent : Bool)
    (hc : is_complete code k.sc_delimit_mode = true)
    (hq : magics.quit_early = none)
    (hraise : (post_do_hook st session.probe_rc session.probe_res).raised = false) :
    (do_execute k st magics session code silent).kernel.sc_delimit_mode =
      ends_sc magics.transform k.sc_delimit_mode := by
  simp [do_execute, hc, hq, hraise]

/-- C1 (amended) witness: the commit happens even with a failing return
code (`rc = 1`). -/
theorem delimit_commit_unconditional_witness :
    (do_execute init_kernel ⟨80⟩ ⟨"#delimit ;", none⟩ ⟨1, "", 1, ""⟩
        "#delimit ;" false).kernel.sc_delimit_mode =
      ends_sc "#delimit ;" false :=
  delimit_commit_unconditional init_kernel ⟨80⟩ ⟨"#delimit ;", none⟩ ⟨1, "", 1, ""⟩
    "#delimit ;" false (by decide) rfl (by decide)

/-- C3 counterexample: a silent execution of the complete block
`#delimit ;` changes the delimiter mode (`ends_sc` differs from the prior
mode, the round trip succeeds and the mode is committed) yet emits no
notice at all — the notice at kernel.py line 119 is guarded by
`not silent`, contradicting the claim for every execution. -/
theorem delimiter_notice_silent_cex :
    ends_sc "#delimit ;" false ≠ init_kernel.sc_delimit_mode ∧
    (do_execute init_kernel ⟨80⟩ ⟨"#delimit ;", none⟩ ⟨0, "", 1, ""⟩
        "#delimit ;" true).reply =
      some { status := "ok", execution_count := some 0,
             payload := some [], user_expressions := some [] } ∧
    (do_execute init_kernel ⟨80⟩ ⟨"#delimit ;", none⟩ ⟨0, "", 1, ""⟩
        "#delimit ;" true).kernel.sc_delimit_mode = true ∧
    (do_execute init_kernel ⟨80⟩ ⟨"#delimit ;", none⟩ ⟨0, "", 1, ""⟩
        "#delimit ;" true).msgs = [] := by
  refine ⟨by decide, by decide, by decide, by decide⟩

/-- C3 (amended): for every non-silent execution of a complete non-magic
block whose post-execution hook completes, if the splitter's `ends_sc`
differs from the prior delimiter mode then `do_execute` emits exactly one
stdout notice `delimiter now ;` or `delimiter now cr` and commits the new
mode; if the modes agree, no notice is emitted. -/
theorem delimiter_notice_nonsilent (k : KernelState) (st : StataState)
    (magics : MagicsBehavior) (session : SessionBehavior) (code : String)
    (hc : is_complete code k.sc_delimit_mode = true)
    (hq : magics.quit_early = none)
    (hraise : (post_do_hook st session.probe_rc session.probe_res).raised = false) :
    (ends_sc magics.transform k.sc_delimit_mode ≠ k.sc_delimit_mode →
      (do_execute k st magics session code false).msgs =
        [Msg.stream "stdout" ("delimiter now " ++
          (if ends_sc magics.transform k.sc_delimit_mode then ";" else "cr"))] ∧
      (do_execute k st magics session code false).kernel.sc_delimit_mode =
        ends_sc magics.transform k.sc_delimit_mode) ∧
    (ends_sc magics.transform k.sc_delimit_mode = k.sc_delimit_mode →
      (do_execute k st magics session code false).msgs = []) := by
  constructor <;> intro h <;> simp [do_execute, hc, hq, hraise, h]

/-- C3 (amended) witness: the non-silent execution of `#delimit ;` from
newline mode emits the single notice `delimiter now ;`. -/
theorem delimiter_notice_nonsilent_witness :
    (do_execute init_kernel ⟨80⟩ ⟨"#delimit ;", none⟩ ⟨0, "", 1, ""⟩
        "#delimit ;" false).msgs =
      [Msg.stream "stdout" ("delimiter now " ++
        (if ends_sc "#delimit ;" false then ";" else "cr"))] ∧
    (do_execute init_kernel ⟨80⟩ ⟨"#delimit ;", none⟩ ⟨0, "", 1, ""⟩
        "#delimit ;" false).kernel.sc_delimit_mode = ends_sc "#delimit ;" false :=
  (delimiter_notice_nonsilent init_kernel ⟨80⟩ ⟨"#delimit ;", none⟩ ⟨0, "", 1, ""⟩
    "#delimit ;" (by decide) rfl (by decide)).1 (by decide)

/-- C6: every execution of a complete non-magic block runs exactly one
suppressed (`display=False`) session round trip, the line-size probe; the
session's `linesize` is updated from the probe's captured value only on a
zero probe return code, and is left unchanged when the probe fails. -/
theorem probe_suppressed_and_linesize (k : KernelState) (st : StataState)
    (magics : MagicsBehavior) (session : SessionBehavior) (code : String)
    (silent : Bool)
    (hc : is_complete code k.sc_delimit_mode = true)
    (hq : magics.quit_early = none) :
    ((do_execute k st magics session code silent).events.filter isSuppressedDo =
      [Event.sessionDo probe_code (fingerprint probe_code) none false]) ∧
    (session.probe_rc ≠ 0 →
      (do_execute k st magics session code silent).stata.linesize = st.linesize) ∧
    (∀ n : Int, session.probe_rc = 0 → session.probe_res.trim.toInt? = some n →
      (do_execute k st magics session code silent).stata.linesize = n) := by
  by_cases hp : session.probe_rc = 0
  · cases hres : session.probe_res.trim.toInt? with
    | none =>
      refine ⟨?_, ?_, ?_⟩
      · simp [do_execute, hc, hq, post_do_hook, hp, hres, get_text, isSuppressedDo]
      · intro h; exact absurd hp h
      · intro n _ hsome; exact absurd hsome (by simp)
    | some m =>
      refine ⟨?_, ?_, ?_⟩
      · simp [do_execute, hc, hq, post_do_hook, hp, hres, get_text, isSuppressedDo]
      · intro h; exact absurd hp h
      · intro n _ hsome
        obtain rfl : m = n := Option.some_injective _ hsome
        simp [do_execute, hc, hq, post_do_hook, hp, hres, get_text]
  · refine ⟨?_, ?_, ?_⟩
    · simp [do_execute, hc, hq, post_do_hook, hp, get_text, isSuppressedDo]
    · intro _; simp [do_execute, hc, hq, post_do_hook, hp, get_text]
    · intro n h; exact absurd h hp

/-- C6 witness: a failing probe (`probe_rc = 1`) leaves `linesize` at its
prior value 80, and the trace holds exactly the one suppressed probe
call. -/
theorem probe_suppressed_and_linesize_witness :
    ((do_execute init_kernel ⟨80⟩ ⟨"di 1", none⟩ ⟨0, "", 1, ""⟩ "di 1"
        false).events.filter isSuppressedDo =
      [Event.sessionDo probe_code (fingerprint probe_code) none false]) ∧
    (do_execute init_kernel ⟨80⟩ ⟨"di 1", none⟩ ⟨0, "", 1, ""⟩ "di 1"
        false).stata.linesize = 80 :=
  ⟨(probe_suppressed_and_linesize init_kernel ⟨80⟩ ⟨"di 1", none⟩ ⟨0, "", 1, ""⟩
      "di 1" false (by decide) rfl).1,
   (probe_suppressed_and_linesize init_kernel ⟨80⟩ ⟨"di 1", none⟩ ⟨0, "", 1, ""⟩
      "di 1" false (by decide) rfl).2.1 (by decide)⟩

/-- C10: `send_image` sends at most one message per call, every message it
sends is a `display_data` response, and a path whose extension is none of
`.svg`, `.png`, `.pdf` produces no message at all (the dispatch falls
through without raising). -/
theorem send_image_gate (g : GraphFile) (p : String) :
    (send_image g p).length ≤ 1 ∧
    (∀ m ∈ send_image g p, ∃ mime w h, m = Msg.displayData mime w h) ∧
    (¬(strEndsWith p ".svg" = true ∨ strEndsWith p ".png" = true ∨
        strEndsWith p ".pdf" = true) →
      send_image g p = []) := by
  by_cases h1 : strEndsWith p ".svg" = true
  · refine ⟨?_, ?_, ?_⟩ <;> simp [send_image, h1]
  · by_cases h2 : strEndsWith p ".png" = true
    · refine ⟨?_, ?_, ?_⟩ <;> simp [send_image, h1, h2]
    · by_cases h3 : strEndsWith p ".pdf" = true
      · refine ⟨?_, ?_, ?_⟩ <;> simp [send_image, h1, h2, h3]
      · refine ⟨?_, ?_, ?_⟩ <;> simp [send_image, h1, h2, h3]

/-- C10 witness: a TIFF path produces no message. -/
theorem send_image_gate_witness :
    send_image ⟨1, 2, 3, 4, false⟩ "graph.tif" = [] :=
  (send_image_gate ⟨1, 2, 3, 4, false⟩ "graph.tif").2.2 (by decide)

/-- A whitespace character is one of the four recognised characters. -/
lemma isWsChar_cases (c : Char) (h : isWsChar c = true) :
    c = ' ' ∨ c = '\t' ∨ c = '\r' ∨ c = '\n' := by
  simp [isWsChar] at h
  tauto

/-- One whitespace character preserves acceptance of the (finished)
scanner state. -/
lemma ws_step (s : ScanState) (c : Char) (hws : isWsChar c = true)
    (hacc : completeState (finish s) = true) :
    completeState (finish (step s c)) = true := by
  obtain ⟨lex, depth, pending, mode⟩ := s
  have hc := isWsChar_cases c hws
  have hdep : depth = 0 := by
    cases lex <;> simp [finish, completeState, acceptingLex] at hacc <;> omega
  subst hdep
  cases lex with
  | normal =>
    revert hacc
    rcases hc with hc | hc | hc | hc <;> subst hc <;>
      cases pending <;> cases mode <;> decide
  | slash1 =>
    revert hacc
    rcases hc with hc | hc | hc | hc <;> subst hc <;>
      cases pending <;> cases mode <;> decide
  | slash2 =>
    revert hacc
    rcases hc with hc | hc | hc | hc <;> subst hc <;>
      cases pending <;> cases mode <;> decide
  | lineComment =>
    revert hacc
    rcases hc with hc | hc | hc | hc <;> subst hc <;>
      cases pending <;> cases mode <;> decide
  | contComment =>
    revert hacc
    rcases hc with hc | hc | hc | hc <;> subst hc <;>
      cases pending <;> cases mode <;> decide
  | strLit =>
    revert hacc
    rcases hc with hc | hc | hc | hc <;> subst hc <;>
      cases pending <;> cases mode <;> decide
  | delimitArg =>
    revert hacc
    rcases hc with hc | hc | hc | hc <;> subst hc <;>
      cases pending <;> cases mode <;> decide
  | blockComment d =>
    simp [finish, completeState, acceptingLex] at hacc
  | bcStar d =>
    simp [finish, completeState, acceptingLex] at hacc
  | bcSlash d =>
    simp [finish, completeState, acceptingLex] at hacc
  | hashKw i =>
    have hm : mode = false := by
      simpa [finish, completeState, acceptingLex] using hacc
    subst hm
    by_cases hkw : c = kwChar i
    · by_cases h7 : i = 7 <;>
        simp [step, hkw, h7, finish, completeState, acceptingLex]
    · rcases hc with hc | hc | hc | hc <;> subst hc <;>
        simp [step, hkw] <;> decide

/-- Scanning whitespace-only text preserves acceptance. -/
lemma ws_scan (l : List Char) (s : ScanState)
    (hws : ∀ c ∈ l, isWsChar c = true)
    (hacc : completeState (finish s) = true) :
    completeState (finish (scanFrom s l)) = true := by
  induction l generalizing s with
  | nil => simpa [scanFrom] using hacc
  | cons c t ih =>
    have h1 : isWsChar c = true := hws c (by simp)
    have h2 := ws_step s c h1 hacc
    simpa [scanFrom] using ih (step s c) (fun d hd => hws d (by simp [hd])) h2

/-- C7: completeness is monotone under appended whitespace — for every
text and every delimiter mode, if `is_complete text mode` holds then so
does `is_complete (text ++ w) mode` for any whitespace-only `w`. -/
theorem is_complete_ws_monotone (code w : String) (mode : Bool)
    (hws : ∀ c ∈ w.data, isWsChar c = true)
    (h : is_complete code mode = true) :
    is_complete (code ++ w) mode = true := by
  have hdata : (code ++ w).data = code.data ++ w.data := by
    cases code; cases w; rfl
  unfold is_complete finalState at h ⊢
  rw [hdata]
  unfold scanFrom at h ⊢
  rw [List.foldl_append]
  exact ws_scan w.data _ hws h

/-- C7 witness: `di 1` stays complete after appending a space and a
newline. -/
theorem is_complete_ws_monotone_witness :
    is_complete ("di 1" ++ " \n") false = true :=
  is_complete_ws_monotone "di 1" " \n" false (by decide) (by decide)

end StataKernel
